import Mathlib

/-!
Shallow embedding of the gridfan repository (Go) for checking its
natural-language specification.

Embedded components:
- disk status constants and the disk-group aggregation
  (src/unnamed/part_003, DiskGroup.GetTemperature / DiskGroup.GetStatus);
- the GridFan serial controller validation and byte encoding
  (src/internal/disk/disk.go, GridFanController GetSpeed / SetSpeed);
- the configuration validation (src/unnamed/part_002, ReadConfig);
- the control loop of src/daemon/daemon.go (Run), one cycle as a pure
  step function over explicit loop state and sampled inputs.

Go ints are modelled as Int; quantities the source can only produce as
non-negative values (parsed temperatures, byte values, status enum) are
modelled as Nat.  Time is modelled as an Int number of seconds.
-/

namespace Gridfan

/-! ## Disk status constants (src/internal/disk/disk.go, iota) -/

def DiskStatusSleep : Nat := 0

def DiskStatusStandby : Nat := 1

def DiskStatusActive : Nat := 2

/-! ## Disk group aggregation (src/unnamed/part_003)

A single disk's GetTemperature shells out to hddtemp and either fails,
reports the sleeping-disk signal (ErrSleepingDisk), or parses a
temperature from a digit-only prefix of the output (so the parsed
temperature is always a non-negative integer).  We model the per-disk
outcome as an input to the group aggregation. -/

inductive TempResult where
  | ok (temp : Nat)
  | sleeping
  | failed (e : String)
deriving DecidableEq

inductive StatusResult where
  | ok (status : Nat)
  | failed (e : String)
deriving DecidableEq

/-- Loop body of DiskGroup.GetTemperature: running maximum starts at 0,
a sleeping disk is skipped via continue, any other error returns
immediately, and a temperature updates the maximum only when strictly
greater. -/
def groupGetTempAux (maxTemperature : Nat) : List TempResult → Except String Nat
  | [] => .ok maxTemperature
  | r :: rest =>
    match r with
    | .ok t => groupGetTempAux (if t > maxTemperature then t else maxTemperature) rest
    | .sleeping => groupGetTempAux maxTemperature rest
    | .failed e => .error e

/-- DiskGroup.GetTemperature (src/unnamed/part_003 lines 30-53). -/
def DiskGroup.GetTemperature (rs : List TempResult) : Except String Nat :=
  groupGetTempAux 0 rs

/-- Loop body of DiskGroup.GetStatus: running maximum starts at
DiskStatusSleep, any per-disk error returns immediately. -/
def groupGetStatusAux (maxStatus : Nat) : List StatusResult → Except String Nat
  | [] => .ok maxStatus
  | r :: rest =>
    match r with
    | .ok s => groupGetStatusAux (if s > maxStatus then s else maxStatus) rest
    | .failed e => .error e

/-- DiskGroup.GetStatus (src/unnamed/part_003 lines 56-73). -/
def DiskGroup.GetStatus (rs : List StatusResult) : Except String Nat :=
  groupGetStatusAux DiskStatusSleep rs

/-- Description from the spec, for comparison with DiskGroup.GetTemperature:
a sleeping disk contributes nothing, the first other per-disk error aborts
the whole call with that error, otherwise the result is the maximum
temperature over the non-sleeping disks (0 when the group is empty or all
disks are sleeping). -/
def GetTemperatureSpec (rs : List TempResult) : Except String Nat :=
  match rs.findSome? (fun r => match r with | .failed e => some e | _ => none) with
  | some e => .error e
  | none =>
    .ok ((rs.filterMap (fun r => match r with | .ok t => some t | _ => none)).foldl
      Nat.max 0)

/-- Description from the spec, for comparison with DiskGroup.GetStatus:
the first per-disk error aborts with that error, otherwise the result is
the maximum status (Asleep = 0 < Standby = 1 < Active = 2), Asleep for an
empty group. -/
def GetStatusSpec (rs : List StatusResult) : Except String Nat :=
  match rs.findSome? (fun r => match r with | .failed e => some e | _ => none) with
  | some e => .error e
  | none =>
    .ok ((rs.filterMap (fun r => match r with | .ok s => some s | _ => none)).foldl
      Nat.max DiskStatusSleep)

/-! ## GridFan serial controller (src/internal/disk/disk.go, package controller)

The serial transport is modelled by two inputs: whether the frame write
succeeds, and the list of reply bytes the device would deliver (an empty
or too-short list models a read error from the transport).  Each
operation returns its result together with the bytes it handed to
writeFully (empty when validation fails before any I/O) and the number of
reply bytes requested from readFully; in the source, readFully is only
reached after writeFully succeeded. -/

def GridMinFanIndex : Int := 1

def GridMaxFanIndex : Int := 6

def GridMinFanRPM : Int := 20

def GridMaxFanRPM : Int := 100

/-- GridFanController.IsValidFan. -/
def isValidFan (fan : Int) : Bool :=
  decide (fan ≥ GridMinFanIndex) && decide (fan ≤ GridMaxFanIndex)

/-- GridFanController.IsValidRPM. -/
def isValidRPM (rpm : Int) : Bool :=
  rpm == 0 || (decide (rpm ≥ GridMinFanRPM) && decide (rpm ≤ GridMaxFanRPM))

/-- Go byte(i) conversion of an int: the value modulo 256. -/
def byteOf (i : Int) : Nat := (i % 256).toNat

/-- The two payload bytes computed by SetSpeed: both zero for rpm 0,
otherwise byteA = 0x2 + byte(rpm)/10 and byteB = (byte(rpm)%10)*0x10,
in wrapping byte arithmetic. -/
def setSpeedBytes (rpm : Int) : Nat × Nat :=
  if rpm == 0 then (0, 0)
  else ((0x2 + byteOf rpm / 10) % 256, (byteOf rpm % 10 * 0x10) % 256)

/-- The decoding GetSpeed applies to reply bytes 3 and 4:
byte 3 shifted left by 8 bits, bitwise-or byte 4. -/
def getSpeedValue (b3 b4 : Nat) : Nat := (b3 <<< 8) ||| b4

inductive ControllerError where
  | notOpen
  | invalidFan (fan : Int)
  | invalidRPM (rpm : Int)
  | unexpectedReply (b : Nat)
  | malformedReply (bs : List Nat)
  | ioFailure
deriving DecidableEq

structure WireResult (α : Type) where
  result : Except ControllerError α
  written : List Nat
  readCount : Nat

/-- GridFanController.GetSpeed (src/internal/disk/disk.go lines 346-375):
requires the controller open and a valid fan before any I/O, writes
[0x8a, fan], reads 5 reply bytes, requires the first three to equal
[0xc0, 0x00, 0x00], and decodes the speed from the last two. -/
def GetSpeed (isOpen : Bool) (fan : Int) (writeOk : Bool) (reply : List Nat) :
    WireResult Nat :=
  if !isOpen then ⟨.error .notOpen, [], 0⟩
  else if !isValidFan fan then ⟨.error (.invalidFan fan), [], 0⟩
  else
    let frame := [0x8a, byteOf fan]
    if !writeOk then ⟨.error .ioFailure, frame, 0⟩
    else
      match reply with
      | b0 :: b1 :: b2 :: b3 :: b4 :: _ =>
        if b0 == 0xc0 && b1 == 0x00 && b2 == 0x00 then
          ⟨.ok (getSpeedValue b3 b4), frame, 5⟩
        else ⟨.error (.malformedReply [b0, b1, b2, b3, b4]), frame, 5⟩
      | _ => ⟨.error .ioFailure, frame, 5⟩

/-- GridFanController.SetSpeed (src/internal/disk/disk.go lines 377-403):
requires the controller open, a valid fan and a valid rpm before any I/O,
writes [0x44, fan, 0xc0, 0x00, 0x00, byteA, byteB], reads 1 reply byte
and requires it to equal 0x01. -/
def SetSpeed (isOpen : Bool) (fan rpm : Int) (writeOk : Bool) (reply : List Nat) :
    WireResult Unit :=
  if !isOpen then ⟨.error .notOpen, [], 0⟩
  else if !isValidFan fan then ⟨.error (.invalidFan fan), [], 0⟩
  else if !isValidRPM rpm then ⟨.error (.invalidRPM rpm), [], 0⟩
  else
    let ab := setSpeedBytes rpm
    let frame := [0x44, byteOf fan, 0xc0, 0x00, 0x00, ab.1, ab.2]
    if !writeOk then ⟨.error .ioFailure, frame, 0⟩
    else
      match reply with
      | r :: _ => if r == 0x01 then ⟨.ok (), frame, 1⟩
                  else ⟨.error (.unexpectedReply r), frame, 1⟩
      | [] => ⟨.error .ioFailure, frame, 1⟩

/-- Inverse of the SetSpeed payload encoding, stated by the amended
round-trip claim: (0,0) decodes to 0, and otherwise the rpm is
(byteA - 2) * 10 + byteB / 16. -/
def rpmFromSetBytes (ab : Nat × Nat) : Nat :=
  if ab.1 = 0 ∧ ab.2 = 0 then 0 else (ab.1 - 2) * 10 + ab.2 / 16

/-! ## Configuration (src/unnamed/part_002, package config)

The Go map of constant fans is modelled as an association list; Go map
iteration order only affects the order of device writes, never which
writes happen. -/

structure ConfigCurvePoint where
  temperature : Int
  rpm : Int
deriving DecidableEq

structure CurveRPMBlock where
  sleeping : Int
  cooldown : Int
  standby : Int
deriving DecidableEq

structure DiskCurveBlock where
  points : List ConfigCurvePoint
  pollInterval : Int
  cooldownTimeout : Int
  rpm : CurveRPMBlock
deriving DecidableEq

structure Config where
  constantRPM : List (Int × Int)
  curveFans : List Int
  devicePath : String
  disks : List String
  diskCurve : DiskCurveBlock
deriving DecidableEq

/-- The strictly-increasing-temperatures check of ReadConfig: each point
after the first must have a temperature strictly above its predecessor. -/
def pointsStrictlyIncreasing : List ConfigCurvePoint → Bool
  | [] => true
  | [_] => true
  | p :: q :: rest =>
    decide (p.temperature < q.temperature) && pointsStrictlyIncreasing (q :: rest)

/-- The validation performed by ReadConfig (src/unnamed/part_002 lines
53-137) after the yaml decode, with the checks in source order; the
per-item early returns of the source are collapsed into whole-list
checks, which accept exactly the same configurations. -/
def validateConfig (config : Config) : Except String Config :=
  if config.devicePath.length == 0 then
    .error "ReadConfig: Missing serial_device_path"
  else if !config.constantRPM.all (fun kv => isValidFan kv.1 && isValidRPM kv.2) then
    .error "ReadConfig: Invalid constant fan index or rpm"
  else if !config.curveFans.all (fun fan =>
      isValidFan fan && !(config.constantRPM.any (fun kv => kv.1 == fan))) then
    .error "ReadConfig: Invalid curve fan index"
  else if !isValidRPM config.diskCurve.rpm.sleeping then
    .error "ReadConfig: Invalid sleeping rpm"
  else if !isValidRPM config.diskCurve.rpm.cooldown then
    .error "ReadConfig: Invalid cooldown rpm"
  else if !isValidRPM config.diskCurve.rpm.standby then
    .error "ReadConfig: Invalid standby rpm"
  else if config.diskCurve.pollInterval < 0 || config.diskCurve.pollInterval > 3600 then
    .error "ReadConfig: Invalid poll_interval"
  else if config.diskCurve.cooldownTimeout < 0 || config.diskCurve.cooldownTimeout > 3600 then
    .error "ReadConfig: Invalid cooldown_timeout"
  else if !(config.diskCurve.points.all (fun p =>
      (decide (0 ≤ p.temperature) && decide (p.temperature ≤ 100)) && isValidRPM p.rpm)
      && pointsStrictlyIncreasing config.diskCurve.points) then
    .error "ReadConfig: Invalid disk_curve point"
  else
    .ok config

/-- Process environment seen by ReadConfig: the command-line arguments,
the file system, and the yaml decoder, each modelled as inputs. -/
structure OSEnv where
  args : List String
  readFile : String → Except String String
  parseYaml : String → Except String Config

/-- ReadConfig (src/unnamed/part_002 lines 37-139): reads the file named
by the second command-line argument — os.Args index 1, not the path
parameter — yaml-decodes it, and validates the result.  Accessing a
missing argument panics in Go, modelled as an error result. -/
def ReadConfig (path : String) (env : OSEnv) : Except String Config :=
  match env.args.drop 1 with
  | [] => .error "panic: runtime error: index out of range"
  | arg1 :: _ =>
    match env.readFile arg1 with
    | .error e => .error e
    | .ok contents =>
      match env.parseYaml contents with
      | .error e => .error e
      | .ok config => validateConfig config

/-! ## Control loop (src/daemon/daemon.go, Run)

One loop iteration is embedded as a pure step function over the mutable
loop state and the inputs sampled during that cycle.  Device effects are
recorded as a trace of operations attempted on the controller. -/

structure LoopState where
  constantSet : Bool
  lastStatus : Nat
  deadlineOff : Int
  lastRPM : Int
deriving DecidableEq

/-- Inputs consumed by one cycle: the current time in seconds, the two
disk-group sample results, whether controller.Open succeeds, and whether
each individual controller.SetSpeed call succeeds. -/
structure CycleInput where
  now : Int
  tempRes : Except String Nat
  statusRes : Except String Nat
  openOk : Bool
  setOk : Int → Int → Bool

inductive DeviceOp where
  | openDev
  | set (fan rpm : Int)
  | closeDev
deriving DecidableEq

/-- The DiskStatusActive arm of the status switch: targetRPM starts at
the 100 default and each curve point with temperature at most the current
temperature overwrites it, so the last such point wins. -/
def curveLookup (points : List ConfigCurvePoint) (temp : Int) : Int :=
  points.foldl (fun targetRPM point =>
    if temp ≥ point.temperature then point.rpm else targetRPM) 100

/-- The target rpm computed by the status switch of Run when both reads
succeeded.  In the branch where the status is asleep and the previous
status was not, the source line
  deadlineOff := time.Until(time.Now().Add(...))
declares a NEW local variable (shadowing the loop's deadlineOff, and of a
different type), used only in the log line; the loop's deadlineOff is
therefore never reassigned anywhere in Run, and that branch sets the
target to the sleeping rpm, not the cooldown rpm. -/
def computeTarget (config : Config) (s : LoopState) (now : Int) (temp : Nat)
    (status : Nat) : Int :=
  if status == DiskStatusSleep then
    if s.lastStatus == DiskStatusSleep then
      if now - s.deadlineOff ≥ 0 then config.diskCurve.rpm.sleeping
      else config.diskCurve.rpm.cooldown
    else
      config.diskCurve.rpm.sleeping
  else if status == DiskStatusStandby then
    config.diskCurve.rpm.standby
  else if status == DiskStatusActive then
    curveLookup config.diskCurve.points (temp : Int)
  else
    100

/-- The target rpm of one full cycle: 100 when either read failed,
otherwise the switch result. -/
def cycleTarget (config : Config) (s : LoopState) (inp : CycleInput) : Int :=
  match inp.tempRes, inp.statusRes with
  | .ok temp, .ok status => computeTarget config s inp.now temp status
  | _, _ => 100

/-- The lastStatus value after the sampling phase: unchanged when either
read failed, otherwise the sampled status (the switch is followed by
lastStatus = status unconditionally). -/
def cycleLastStatus (s : LoopState) (inp : CycleInput) : Nat :=
  match inp.tempRes, inp.statusRes with
  | .ok _, .ok status => status
  | _, _ => s.lastStatus

/-- The device phase of one cycle, applied to the state after the
sampling phase.  When the constant assignment is already applied and the
target equals lastRPM the device is not touched; on Open failure the
cycle is abandoned (continue) with no further state change; otherwise the
constant fans are set once (the flag stays set only if every call
succeeded) followed by the curve fans when the target changed (lastRPM
becomes -1 if any call failed), and the controller is closed. -/
def emitPhase (config : Config) (s : LoopState) (targetRPM : Int)
    (inp : CycleInput) : LoopState × List DeviceOp :=
  if !s.constantSet || s.lastRPM != targetRPM then
    if !inp.openOk then (s, [.openDev])
    else
      let constantOps := if !s.constantSet then
          config.constantRPM.map (fun kv => DeviceOp.set kv.1 kv.2) else []
      let constantSet2 := s.constantSet ||
          config.constantRPM.all (fun kv => inp.setOk kv.1 kv.2)
      let curveOps := if s.lastRPM != targetRPM then
          config.curveFans.map (fun fan => DeviceOp.set fan targetRPM) else []
      let lastRPM2 := if s.lastRPM != targetRPM then
          (if config.curveFans.all (fun fan => inp.setOk fan targetRPM) then targetRPM
           else -1)
        else s.lastRPM
      ({ s with constantSet := constantSet2, lastRPM := lastRPM2 },
        DeviceOp.openDev :: (constantOps ++ curveOps ++ [DeviceOp.closeDev]))
  else
    (s, [])

/-- One full iteration of the Run loop: sampling phase, then device
phase. -/
def runCycle (config : Config) (s : LoopState) (inp : CycleInput) :
    LoopState × List DeviceOp :=
  emitPhase config { s with lastStatus := cycleLastStatus s inp }
    (cycleTarget config s inp) inp

/-- The initial loop state of Run at start time t0: constant assignment
pending, lastStatus seeded asleep, deadlineOff seeded to the start time,
lastRPM the -1 sentinel. -/
def initialLoopState (t0 : Int) : LoopState :=
  { constantSet := false, lastStatus := DiskStatusSleep, deadlineOff := t0,
    lastRPM := -1 }

/-- Curve lookup as the spec words it: the rpm of the last point whose
temperature is at most the current temperature, 100 when no point
matches. -/
def curveLookupSpec (points : List ConfigCurvePoint) (temp : Int) : Int :=
  match (points.filter (fun p => decide (p.temperature ≤ temp))).getLast? with
  | some p => p.rpm
  | none => 100

/-! ## Concrete fixtures used by the claim theorems -/

/-- The example curve [(40,30),(50,50),(60,80)]. -/
def examplePoints : List ConfigCurvePoint := [⟨40, 30⟩, ⟨50, 50⟩, ⟨60, 80⟩]

/-- Configuration for the asleep-transition scenario: cooldown timeout 60
seconds, cooldown rpm 40, sleeping rpm 0. -/
def transitionConfig : Config :=
  { constantRPM := [], curveFans := [1], devicePath := "/dev/ttyS0", disks := [],
    diskCurve := { points := [], pollInterval := 30, cooldownTimeout := 60,
                   rpm := { sleeping := 0, cooldown := 40, standby := 50 } } }

/-- Loop state just before the transition: previous status Active, the
deadline still at its start-up seed 0, well in the past of time 1000. -/
def transitionState : LoopState :=
  { constantSet := true, lastStatus := DiskStatusActive, deadlineOff := 0,
    lastRPM := 50 }

/-- Cycle input at time T0 = 1000: both reads succeed and the sampled
status is asleep. -/
def transitionInput : CycleInput :=
  { now := 1000, tempRes := .ok 30, statusRes := .ok DiskStatusSleep,
    openOk := true, setOk := fun _ _ => true }

/-- The same sampling 30 seconds later, at T0 + 30. -/
def transitionInput30 : CycleInput :=
  { transitionInput with now := 1030 }

/-- Cycle input whose temperature read failed. -/
def errInput : CycleInput :=
  { now := 2000, tempRes := .error "hddtemp failed", statusRes := .ok DiskStatusActive,
    openOk := true, setOk := fun _ _ => true }

/-- Steady asleep state whose target will repeat the applied rpm. -/
def steadyState : LoopState :=
  { constantSet := true, lastStatus := DiskStatusSleep, deadlineOff := 0,
    lastRPM := 0 }

/-- Cycle input sampling asleep long after the deadline. -/
def steadyInput : CycleInput :=
  { now := 500, tempRes := .ok 30, statusRes := .ok DiskStatusSleep,
    openOk := true, setOk := fun _ _ => true }

/-! ## Theorems -/

/-- The running-maximum update of the aggregation loops is Nat.max. -/
theorem if_gt_eq_max (m t : Nat) : (if t > m then t else m) = Nat.max m t := by
  rcases Nat.lt_or_ge m t with h | h
  · simp [h, Nat.max_eq_right (Nat.le_of_lt h)]
  · have hng : ¬ t > m := by omega
    simp [hng, Nat.max_eq_left h]

/-- The temperature aggregation loop, for any accumulator value, yields
the first non-sleeping error, or else the maximum of the accumulator and
the reported temperatures. -/
theorem groupGetTempAux_spec (rs : List TempResult) : ∀ m : Nat,
    groupGetTempAux m rs =
      match rs.findSome? (fun r => match r with | .failed e => some e | _ => none) with
      | some e => .error e
      | none =>
        .ok ((rs.filterMap (fun r => match r with | .ok t => some t | _ => none)).foldl
          Nat.max m) := by
  induction rs with
  | nil => intro m; rfl
  | cons r rest ih =>
    intro m
    cases r with
    | ok t =>
      simp only [groupGetTempAux, List.findSome?_cons, List.filterMap_cons,
        List.foldl_cons, if_gt_eq_max]
      exact ih (Nat.max m t)
    | sleeping =>
      simp only [groupGetTempAux, List.findSome?_cons, List.filterMap_cons]
      exact ih m
    | failed e =>
      simp only [groupGetTempAux, List.findSome?_cons, List.filterMap_cons]

/-- The status aggregation loop, for any accumulator value, yields the
first error, or else the maximum of the accumulator and the reported
statuses. -/
theorem groupGetStatusAux_spec (rs : List StatusResult) : ∀ m : Nat,
    groupGetStatusAux m rs =
      match rs.findSome? (fun r => match r with | .failed e => some e | _ => none) with
      | some e => .error e
      | none =>
        .ok ((rs.filterMap (fun r => match r with | .ok s => some s | _ => none)).foldl
          Nat.max m) := by
  induction rs with
  | nil => intro m; rfl
  | cons r rest ih =>
    intro m
    cases r with
    | ok s =>
      simp only [groupGetStatusAux, List.findSome?_cons, List.filterMap_cons,
        List.foldl_cons, if_gt_eq_max]
      exact ih (Nat.max m s)
    | failed e =>
      simp only [groupGetStatusAux, List.findSome?_cons, List.filterMap_cons]

/-- C5: DiskGroup.GetTemperature skips sleeping disks, aborts with the
first other per-disk error, and otherwise returns the maximum temperature
over the non-sleeping disks, 0 when the group is empty or every disk is
sleeping — it coincides with the spec description on every list of
per-disk outcomes. -/
theorem DiskGroup_GetTemperature_correct (rs : List TempResult) :
    DiskGroup.GetTemperature rs = GetTemperatureSpec rs :=
  groupGetTempAux_spec rs 0

/-- C6: DiskGroup.GetStatus aborts with the first per-disk error and
otherwise returns the maximum status, Asleep below Standby below Active
(Asleep for an empty group) — it coincides with the spec description on
every list of per-disk outcomes, and on statuses
[Asleep, Active, Standby] it returns Active. -/
theorem DiskGroup_GetStatus_correct :
    (∀ rs : List StatusResult, DiskGroup.GetStatus rs = GetStatusSpec rs) ∧
    DiskGroup.GetStatus
      [.ok DiskStatusSleep, .ok DiskStatusActive, .ok DiskStatusStandby] =
      .ok DiskStatusActive ∧
    DiskGroup.GetStatus [] = .ok DiskStatusSleep :=
  ⟨fun rs => groupGetStatusAux_spec rs DiskStatusSleep, rfl, rfl⟩

/-- C10: ReadConfig ignores its path parameter — for every two path
arguments and every process environment the results coincide, because
the file read goes through the second command-line argument. -/
theorem ReadConfig_ignores_path (p q : String) (env : OSEnv) :
    ReadConfig p env = ReadConfig q env := rfl

/-- C2 counterexample: rpm 20 is a valid rpm, its SetSpeed encoding is
the byte pair (4, 0), and decoding that pair with the GetSpeed formula
yields 1024, not 20 — the claimed round-trip fails. -/
theorem getSpeed_formula_not_inverse_at_20 :
    isValidRPM 20 = true ∧ setSpeedBytes 20 = (4, 0) ∧
    getSpeedValue (setSpeedBytes 20).1 (setSpeedBytes 20).2 = 1024 ∧
    getSpeedValue (setSpeedBytes 20).1 (setSpeedBytes 20).2 ≠ 20 := by
  decide

/-- C2 amended: for every valid rpm the SetSpeed byte encoding is
inverted by the actual inverse map ((0,0) to 0, otherwise
(byteA - 2) * 10 + byteB / 16), so the encoding round-trips and in
particular is injective on the valid domain; the GetSpeed formula is not
that inverse. -/
theorem setSpeedBytes_roundTrip (rpm : Int) (h : isValidRPM rpm = true) :
    (rpmFromSetBytes (setSpeedBytes rpm) : Int) = rpm := by
  have hb : rpm = 0 ∨ (20 ≤ rpm ∧ rpm ≤ 100) := by
    simp only [isValidRPM, GridMinFanRPM, GridMaxFanRPM, Bool.or_eq_true,
      Bool.and_eq_true, beq_iff_eq, decide_eq_true_eq, ge_iff_le] at h
    omega
  have h0 : 0 ≤ rpm := by omega
  have hlt : rpm.toNat < 101 := by omega
  have key : ∀ m : Fin 101, isValidRPM (m.val : Int) = true →
      (rpmFromSetBytes (setSpeedBytes (m.val : Int)) : Int) = (m.val : Int) := by
    decide
  have hcast : ((rpm.toNat : Nat) : Int) = rpm := Int.toNat_of_nonneg h0
  have hk := key ⟨rpm.toNat, hlt⟩
  simp only [hcast] at hk
  exact hk h

/-- C2 amended witness at rpm 47. -/
theorem setSpeedBytes_roundTrip_witness :
    isValidRPM 47 = true ∧ (rpmFromSetBytes (setSpeedBytes 47) : Int) = 47 :=
  ⟨by decide, setSpeedBytes_roundTrip 47 (by decide)⟩

/-- C9: with the controller open, an out-of-range fan makes GetSpeed and
SetSpeed fail with the invalid-fan error, and a valid fan with an
out-of-range rpm makes SetSpeed fail with the invalid-rpm error, in every
case with no bytes written to and none read from the serial device. -/
theorem controller_validates_before_io (fan rpm : Int) (writeOk : Bool)
    (reply : List Nat) :
    (isValidFan fan = false →
      GetSpeed true fan writeOk reply =
        ⟨.error (.invalidFan fan), [], 0⟩ ∧
      SetSpeed true fan rpm writeOk reply =
        ⟨.error (.invalidFan fan), [], 0⟩) ∧
    (isValidFan fan = true → isValidRPM rpm = false →
      SetSpeed true fan rpm writeOk reply =
        ⟨.error (.invalidRPM rpm), [], 0⟩) := by
  refine ⟨fun h => ⟨?_, ?_⟩, fun h1 h2 => ?_⟩ <;>
    simp [GetSpeed, SetSpeed, *]

/-- C9 witness: fan 0 is rejected by both operations, and rpm 5 on fan 1
is rejected by SetSpeed, each with an empty I/O trace. -/
theorem controller_validates_before_io_witness :
    GetSpeed true 0 true [0xc0, 0, 0, 4, 0] =
      ⟨.error (.invalidFan 0), [], 0⟩ ∧
    SetSpeed true 1 5 true [1] = ⟨.error (.invalidRPM 5), [], 0⟩ :=
  ⟨((controller_validates_before_io 0 5 true [0xc0, 0, 0, 4, 0]).1 (by decide)).1,
   (controller_validates_before_io 1 5 true [1]).2 (by decide) (by decide)⟩

/-- The curve fold, for any starting value, returns the rpm of the last
point whose temperature is at most the current temperature, and the
starting value when no point matches. -/
theorem curveFold_eq_lastMatch (t : Int) (points : List ConfigCurvePoint) :
    ∀ acc : Int,
      points.foldl (fun targetRPM point =>
        if t ≥ point.temperature then point.rpm else targetRPM) acc =
      match (points.filter (fun p => decide (p.temperature ≤ t))).getLast? with
      | some p => p.rpm
      | none => acc := by
  induction points using List.reverseRecOn with
  | nil => intro acc; rfl
  | append_singleton rest p ih =>
    intro acc
    rw [List.foldl_append, List.filter_append, List.foldl_cons, List.foldl_nil]
    by_cases h : p.temperature ≤ t
    · rw [if_pos h]
      simp [List.filter_cons, h, List.getLast?_concat]
    · rw [if_neg (by omega)]
      simpa [List.filter_cons, h] using ih acc

/-- C3: for every strictly increasing curve the lookup in Run returns the
rpm of the last point whose temperature is at most the current
temperature, and 100 when no point matches; on the example curve
[(40,30),(50,50),(60,80)] the lookup yields 100, 30, 30, 50, 80 at
temperatures 39, 40, 49, 50, 65. -/
theorem curveLookup_correct :
    (∀ (points : List ConfigCurvePoint) (t : Int),
      pointsStrictlyIncreasing points = true →
      curveLookup points t = curveLookupSpec points t) ∧
    curveLookup examplePoints 39 = 100 ∧
    curveLookup examplePoints 40 = 30 ∧
    curveLookup examplePoints 49 = 30 ∧
    curveLookup examplePoints 50 = 50 ∧
    curveLookup examplePoints 65 = 80 :=
  ⟨fun points t _ => curveFold_eq_lastMatch t points 100,
    by decide, by decide, by decide, by decide, by decide⟩

/-- C3 witness: the example curve is strictly increasing and the lookup
agrees with the spec description on it at temperature 39. -/
theorem curveLookup_correct_witness :
    pointsStrictlyIncreasing examplePoints = true ∧
    curveLookup examplePoints 39 = curveLookupSpec examplePoints 39 :=
  ⟨by decide, curveLookup_correct.1 examplePoints 39 (by decide)⟩

/-- C1: what the code does at the asleep transition.  With previous
status Active and sampled status Asleep at T0 = 1000, cooldown timeout 60
and cooldown rpm 40, Run sets the target to the sleeping rpm (0), not the
cooldown rpm, leaves the loop's deadlineOff unchanged (the assignment in
that branch declares a shadowing local), and on the next cycle at
T0 + 30 the target is again the sleeping rpm instead of the claimed
cooldown rpm. -/
theorem asleep_transition_code_behavior :
    cycleTarget transitionConfig transitionState transitionInput =
      transitionConfig.diskCurve.rpm.sleeping ∧
    cycleTarget transitionConfig transitionState transitionInput ≠
      transitionConfig.diskCurve.rpm.cooldown ∧
    (runCycle transitionConfig transitionState transitionInput).1.deadlineOff =
      transitionState.deadlineOff ∧
    (runCycle transitionConfig transitionState transitionInput).1.deadlineOff ≠
      transitionInput.now + transitionConfig.diskCurve.cooldownTimeout ∧
    cycleTarget transitionConfig
        (runCycle transitionConfig transitionState transitionInput).1
        transitionInput30 =
      transitionConfig.diskCurve.rpm.sleeping ∧
    cycleTarget transitionConfig
        (runCycle transitionConfig transitionState transitionInput).1
        transitionInput30 ≠
      transitionConfig.diskCurve.rpm.cooldown := by
  refine ⟨rfl, by decide, rfl, by decide, rfl, by decide⟩

/-- The device phase never changes lastStatus or deadlineOff. -/
theorem emitPhase_preserves (config : Config) (st : LoopState) (target : Int)
    (inp : CycleInput) :
    (emitPhase config st target inp).1.lastStatus = st.lastStatus ∧
    (emitPhase config st target inp).1.deadlineOff = st.deadlineOff := by
  unfold emitPhase
  split
  · split
    · exact ⟨rfl, rfl⟩
    · exact ⟨rfl, rfl⟩
  · exact ⟨rfl, rfl⟩

/-- computeTarget reads the state only through lastStatus and
deadlineOff. -/
theorem computeTarget_ext (config : Config) (s1 s2 : LoopState) (now : Int)
    (temp status : Nat) (h1 : s1.lastStatus = s2.lastStatus)
    (h2 : s1.deadlineOff = s2.deadlineOff) :
    computeTarget config s1 now temp status =
    computeTarget config s2 now temp status := by
  simp only [computeTarget, h1, h2]

/-- C7: in a cycle where the temperature or the status read fails, the
target is the conservative 100 default, lastStatus keeps its previous
value, and any later successful cycle computes the same target as it
would have without the failed cycle (the failed cycle changes neither
lastStatus nor deadlineOff, the only state the target depends on). -/
theorem readError_cycle_conservative (config : Config) (s : LoopState)
    (inp : CycleInput)
    (h : (∃ e, inp.tempRes = Except.error e) ∨ (∃ e, inp.statusRes = Except.error e)) :
    cycleTarget config s inp = 100 ∧
    (runCycle config s inp).1.lastStatus = s.lastStatus ∧
    (∀ (now2 : Int) (temp2 status2 : Nat),
      computeTarget config (runCycle config s inp).1 now2 temp2 status2 =
      computeTarget config s now2 temp2 status2) := by
  have hkey : cycleTarget config s inp = 100 ∧ cycleLastStatus s inp = s.lastStatus := by
    unfold cycleTarget cycleLastStatus
    rcases h with ⟨e, he⟩ | ⟨e, he⟩
    · rw [he]
      exact ⟨rfl, rfl⟩
    · rw [he]
      rcases htemp : inp.tempRes with e1 | t <;> exact ⟨rfl, rfl⟩
  have hpres := emitPhase_preserves config
    { s with lastStatus := cycleLastStatus s inp } (cycleTarget config s inp) inp
  have hls : (runCycle config s inp).1.lastStatus = s.lastStatus := by
    unfold runCycle
    rw [hpres.1]
    exact hkey.2
  have hdl : (runCycle config s inp).1.deadlineOff = s.deadlineOff := by
    unfold runCycle
    rw [hpres.2]
  exact ⟨hkey.1, hls, fun now2 temp2 status2 =>
    computeTarget_ext config _ s now2 temp2 status2 hls hdl⟩

/-- C7 witness: a concrete failed temperature read at time 2000 in the
asleep-transition fixture. -/
theorem readError_cycle_conservative_witness :
    cycleTarget transitionConfig transitionState errInput = 100 ∧
    (runCycle transitionConfig transitionState errInput).1.lastStatus =
      transitionState.lastStatus :=
  ⟨(readError_cycle_conservative transitionConfig transitionState errInput
      (.inl ⟨"hddtemp failed", rfl⟩)).1,
   (readError_cycle_conservative transitionConfig transitionState errInput
      (.inl ⟨"hddtemp failed", rfl⟩)).2.1⟩

/-- C8: when the constant assignment has already been applied and the
computed target equals the last successfully applied rpm, the cycle
performs no device access at all: the device-operation trace is empty. -/
theorem unchanged_target_no_device_access (config : Config) (s : LoopState)
    (inp : CycleInput) (hc : s.constantSet = true)
    (ht : s.lastRPM = cycleTarget config s inp) :
    (runCycle config s inp).2 = [] := by
  unfold runCycle emitPhase
  simp [hc, ← ht]

/-- C8 witness: a steady asleep cycle whose target repeats the applied
rpm issues no device operations. -/
theorem unchanged_target_no_device_access_witness :
    (runCycle transitionConfig steadyState steadyInput).2 = [] :=
  unchanged_target_no_device_access transitionConfig steadyState steadyInput
    rfl (by decide)

/-- A successfully validated configuration has passed the rpm checks of
ReadConfig: every constant-fan entry, the sleeping, cooldown and standby
rpms, and every curve point. -/
theorem validateConfig_ok_rpm_facts (config c : Config)
    (h : validateConfig config = .ok c) :
    config.constantRPM.all (fun kv => isValidFan kv.1 && isValidRPM kv.2) = true ∧
    isValidRPM config.diskCurve.rpm.sleeping = true ∧
    isValidRPM config.diskCurve.rpm.cooldown = true ∧
    isValidRPM config.diskCurve.rpm.standby = true ∧
    config.diskCurve.points.all (fun p =>
      (decide (0 ≤ p.temperature) && decide (p.temperature ≤ 100))
        && isValidRPM p.rpm) = true := by
  unfold validateConfig at h
  by_cases h1 : (config.devicePath.length == 0) = true
  · rw [if_pos h1] at h
    exact Except.noConfusion h
  rw [if_neg h1] at h
  by_cases h2 : (!config.constantRPM.all fun kv => isValidFan kv.1 && isValidRPM kv.2) = true
  · rw [if_pos h2] at h
    exact Except.noConfusion h
  rw [if_neg h2] at h
  by_cases h3 : (!config.curveFans.all fun fan =>
      isValidFan fan && !config.constantRPM.any fun kv => kv.1 == fan) = true
  · rw [if_pos h3] at h
    exact Except.noConfusion h
  rw [if_neg h3] at h
  by_cases h4 : (!isValidRPM config.diskCurve.rpm.sleeping) = true
  · rw [if_pos h4] at h
    exact Except.noConfusion h
  rw [if_neg h4] at h
  by_cases h5 : (!isValidRPM config.diskCurve.rpm.cooldown) = true
  · rw [if_pos h5] at h
    exact Except.noConfusion h
  rw [if_neg h5] at h
  by_cases h6 : (!isValidRPM config.diskCurve.rpm.standby) = true
  · rw [if_pos h6] at h
    exact Except.noConfusion h
  rw [if_neg h6] at h
  by_cases h7 : (config.diskCurve.pollInterval < 0 ||
      config.diskCurve.pollInterval > 3600) = true
  · rw [if_pos h7] at h
    exact Except.noConfusion h
  rw [if_neg h7] at h
  by_cases h8 : (config.diskCurve.cooldownTimeout < 0 ||
      config.diskCurve.cooldownTimeout > 3600) = true
  · rw [if_pos h8] at h
    exact Except.noConfusion h
  rw [if_neg h8] at h
  by_cases h9 : (!(config.diskCurve.points.all (fun p =>
      (decide (0 ≤ p.temperature) && decide (p.temperature ≤ 100)) && isValidRPM p.rpm)
      && pointsStrictlyIncreasing config.diskCurve.points)) = true
  · rw [if_pos h9] at h
    exact Except.noConfusion h
  rw [if_neg h9] at h
  simp only [Bool.not_eq_true, Bool.not_eq_false'] at h2 h4 h5 h6 h9
  rw [Bool.and_eq_true] at h9
  exact ⟨h2, h4, h5, h6, h9.1⟩

/-- The curve fold keeps the target rpm valid when every point rpm and
the starting value are valid. -/
theorem curveFold_valid (t : Int) (points : List ConfigCurvePoint)
    (h : ∀ p ∈ points, isValidRPM p.rpm = true) :
    ∀ acc : Int, isValidRPM acc = true →
      isValidRPM (points.foldl (fun targetRPM point =>
        if t ≥ point.temperature then point.rpm else targetRPM) acc) = true := by
  induction points with
  | nil => intro acc ha; simpa using ha
  | cons p rest ih =>
    intro acc ha
    rw [List.foldl_cons]
    refine ih (fun q hq => h q (List.mem_cons_of_mem _ hq)) _ ?_
    by_cases hc : t ≥ p.temperature
    · simpa [hc] using h p (List.mem_cons_self p rest)
    · simpa [hc] using ha

/-- The target rpm of every cycle of a validated configuration is a valid
rpm. -/
theorem cycleTarget_valid (config c : Config) (s : LoopState) (inp : CycleInput)
    (h : validateConfig config = .ok c) :
    isValidRPM (cycleTarget config s inp) = true := by
  obtain ⟨hconst, hsleep, hcool, hstand, hpoints⟩ :=
    validateConfig_ok_rpm_facts config c h
  have hpts : ∀ p ∈ config.diskCurve.points, isValidRPM p.rpm = true := by
    intro p hp
    have hall := List.all_eq_true.mp hpoints p hp
    rw [Bool.and_eq_true] at hall
    exact hall.2
  unfold cycleTarget
  split
  · next temp status _ _ =>
    unfold computeTarget
    repeat' split
    · exact hsleep
    · exact hcool
    · exact hsleep
    · exact hstand
    · exact curveFold_valid _ _ hpts 100 (by decide)
    · decide
  · decide

/-- Every set operation emitted by the device phase targets either a
constant-fan entry of the configuration or a curve fan at the cycle
target rpm. -/
theorem emitPhase_set_mem (config : Config) (st : LoopState) (target : Int)
    (inp : CycleInput) (fan rpm : Int)
    (hmem : DeviceOp.set fan rpm ∈ (emitPhase config st target inp).2) :
    (fan, rpm) ∈ config.constantRPM ∨ (fan ∈ config.curveFans ∧ rpm = target) := by
  unfold emitPhase at hmem
  by_cases hco : st.constantSet <;>
    by_cases hlr : (st.lastRPM != target) = true <;>
    by_cases hop : inp.openOk <;>
    simp [hco, hlr, hop] at hmem
  · obtain ⟨a, ha, rfl, rfl⟩ := hmem
    exact .inr ⟨ha, rfl⟩
  · rcases hmem with h1 | ⟨a, ha, rfl, rfl⟩
    · exact .inl h1
    · exact .inr ⟨ha, rfl⟩
  · exact .inl hmem

/-- C4: under a configuration accepted by ReadConfig, every rpm value the
control loop hands to SetSpeed — in any state and any cycle, so in every
reachable state — is 0 or in [20,100]: it is a config-validated
constant-fan rpm or the cycle target, which is always one of 100, the
validated sleeping, cooldown or standby rpm, or a validated curve point
rpm; and SetSpeed itself rejects any other rpm value before writing. -/
theorem runCycle_sends_only_valid_rpm (config c : Config) (s : LoopState)
    (inp : CycleInput) (h : validateConfig config = .ok c) :
    (∀ fan rpm : Int, DeviceOp.set fan rpm ∈ (runCycle config s inp).2 →
      isValidRPM rpm = true) ∧
    (∀ (fan rpm : Int) (writeOk : Bool) (reply : List Nat),
      isValidFan fan = true → isValidRPM rpm = false →
      SetSpeed true fan rpm writeOk reply = ⟨.error (.invalidRPM rpm), [], 0⟩) := by
  constructor
  · intro fan rpm hmem
    obtain ⟨hconst, _, _, _, _⟩ := validateConfig_ok_rpm_facts config c h
    rcases emitPhase_set_mem config _ _ inp fan rpm hmem with hkv | ⟨_, rfl⟩
    · have hall := List.all_eq_true.mp hconst (fan, rpm) hkv
      rw [Bool.and_eq_true] at hall
      exact hall.2
    · exact cycleTarget_valid config c s inp h
  · intro fan rpm writeOk reply h1 h2
    simp [SetSpeed, h1, h2]

/-- C4 witness: the transition fixture configuration validates, and a
concrete invalid rpm is rejected by SetSpeed with no I/O. -/
theorem runCycle_sends_only_valid_rpm_witness :
    SetSpeed true 1 101 true [1] = ⟨.error (.invalidRPM 101), [], 0⟩ :=
  (runCycle_sends_only_valid_rpm transitionConfig transitionConfig
    transitionState transitionInput rfl).2 1 101 true [1] (by decide) (by decide)

end Gridfan
